import Mathlib

/-!
Verification development for the ArbitrageBot repository.

The definitions below are shallow embeddings of the Python sources:
`profit_bot.py`, `profit_bot_fixed.py`, `profit_bot_paper.py`,
`KalshiPairs.py`, `flipper.py`, `flipper_fixed.py` and
`multi_account_arb.py`.  Prices and balances are embedded as rationals,
Python `int()` as truncation toward zero, `math.floor` as the floor, and
Python tuples of heterogeneous arity as lists of rationals.
-/

/-- Python `int()` applied to a float/rational: truncation toward zero. -/
def pyInt (q : ℚ) : ℤ := if q < 0 then ⌈q⌉ else ⌊q⌋

theorem pyInt_of_nonneg {q : ℚ} (h : 0 ≤ q) : pyInt q = ⌊q⌋ := by
  simp [pyInt, not_lt.mpr h]

theorem pyInt_nonpos {q : ℚ} (h : q ≤ 0) : pyInt q ≤ 0 := by
  unfold pyInt
  split
  · exact Int.ceil_le.mpr (by exact_mod_cast h)
  · exact Int.floor_nonpos h

theorem pyInt_intCast (n : ℤ) : pyInt (n : ℚ) = n := by
  unfold pyInt
  split
  · exact Int.ceil_intCast n
  · exact Int.floor_intCast n

/-- Market snapshot fields used by the arbitrage detectors
(`market.get("yes_ask")` etc. in the sources). -/
structure Market where
  ticker : String
  yes_ask : ℚ
  yes_bid : ℚ
  no_ask : ℚ
  no_bid : ℚ
deriving DecidableEq

/-- Pair sizing shared by the three `check_arbitrage` variants
(`profit_bot.py` lines 291-297 and the identical blocks in the
`_fixed`/`_paper` variants): `cost_per_pair = total_cost / 100`,
`max_pairs = int(balance / cost_per_pair)`,
`pairs = int(max_pairs * 0.5 * KELLY_FRACTION)` clamped to `[1, 100]`. -/
def arbPairs (total_cost balance : ℚ) : ℤ :=
  let cost_per_pair := total_cost / 100
  let max_pairs : ℤ := pyInt (balance / cost_per_pair)
  let kelly_pct : ℚ := (1/2) * (1/4)
  let pairs : ℤ := pyInt ((max_pairs : ℚ) * kelly_pct)
  max 1 (min pairs 100)

theorem one_le_arbPairs (total_cost balance : ℚ) : 1 ≤ arbPairs total_cost balance :=
  le_max_left 1 _

namespace ProfitBot

/-- `MIN_ARB_PROFIT = 0.10` in `profit_bot.py`. -/
def MIN_ARB_PROFIT : ℚ := 1/10

/-- `TOTAL_FEE_PCT = 0.012` in `profit_bot.py`. -/
def TOTAL_FEE_PCT : ℚ := 3/250

/-- Embedding of `check_arbitrage(market, balance, positions)` from
`profit_bot.py` (lines 261-302).  The Python function returns the 3-tuple
`(True, net_profit_per_pair, pairs)` on the success path and the 4-tuple
`(False, 0, 0, 0)` on every rejection path; tuples are embedded as lists
of rationals with `True`/`False` encoded as `1`/`0`. -/
def check_arbitrage (market : Market) (balance : ℚ) (positions : List String) :
    List ℚ :=
  let ya := market.yes_ask
  let na := market.no_ask
  let total_cost := ya + na
  if market.ticker ∈ positions then [0, 0, 0, 0]
  else if total_cost < 199/2 ∧ 0 < ya ∧ 0 < na then
    let gross_profit_per_pair := 100 - total_cost
    let fee_cost_per_pair := gross_profit_per_pair * TOTAL_FEE_PCT
    let net_profit_per_pair := gross_profit_per_pair - fee_cost_per_pair
    if MIN_ARB_PROFIT ≤ net_profit_per_pair then
      let pairs := arbPairs total_cost balance
      if 1 ≤ pairs then [1, net_profit_per_pair, (pairs : ℚ)]
      else [0, 0, 0, 0]
    else [0, 0, 0, 0]
  else [0, 0, 0, 0]

end ProfitBot

namespace ProfitBotPaper

/-- `MIN_ARB_PROFIT = 0.50` in `profit_bot_paper.py`. -/
def MIN_ARB_PROFIT : ℚ := 1/2

/-- `TOTAL_FEE_PCT = 0.012` in `profit_bot_paper.py`. -/
def TOTAL_FEE_PCT : ℚ := 3/250

/-- Embedding of `check_arbitrage(market, balance, positions)` from
`profit_bot_paper.py` (lines 138-179); same structure as the
`profit_bot.py` variant but with `MIN_ARB_PROFIT = 0.50`. -/
def check_arbitrage (market : Market) (balance : ℚ) (positions : List String) :
    List ℚ :=
  let ya := market.yes_ask
  let na := market.no_ask
  let total_cost := ya + na
  if market.ticker ∈ positions then [0, 0, 0, 0]
  else if total_cost < 199/2 ∧ 0 < ya ∧ 0 < na then
    let gross_profit_per_pair := 100 - total_cost
    let fee_cost_per_pair := gross_profit_per_pair * TOTAL_FEE_PCT
    let net_profit_per_pair := gross_profit_per_pair - fee_cost_per_pair
    if MIN_ARB_PROFIT ≤ net_profit_per_pair then
      let pairs := arbPairs total_cost balance
      if 1 ≤ pairs then [1, net_profit_per_pair, (pairs : ℚ)]
      else [0, 0, 0, 0]
    else [0, 0, 0, 0]
  else [0, 0, 0, 0]

end ProfitBotPaper

namespace ProfitBotFixed

/-- `MIN_ARB_PROFIT = 0.50` in `profit_bot_fixed.py`. -/
def MIN_ARB_PROFIT : ℚ := 1/2

/-- `TOTAL_FEE_PCT = 0.07` in `profit_bot_fixed.py`. -/
def TOTAL_FEE_PCT : ℚ := 7/100

/-- Embedding of `check_arbitrage(market, balance)` from
`profit_bot_fixed.py` (lines 101-140): mid-price based total cost,
threshold `99.7 - TOTAL_FEE_PCT*100`, same tuple shapes as the other
variants (3-tuple on success, 4-tuple on rejection). -/
def check_arbitrage (market : Market) (balance : ℚ) : List ℚ :=
  let yes_mid := (market.yes_ask + market.yes_bid) / 2
  let no_mid := (market.no_ask + market.no_bid) / 2
  let total_cost := yes_mid + no_mid
  let min_total_cost : ℚ := 997/10 - TOTAL_FEE_PCT * 100
  if total_cost < min_total_cost then
    let gross_profit_per_pair := 100 - total_cost
    let fee_cost_per_pair := gross_profit_per_pair * TOTAL_FEE_PCT
    let net_profit_per_pair := gross_profit_per_pair - fee_cost_per_pair
    if MIN_ARB_PROFIT ≤ net_profit_per_pair then
      let pairs := arbPairs total_cost balance
      if 1 ≤ pairs then [1, net_profit_per_pair, (pairs : ℚ)]
      else [0, 0, 0, 0]
    else [0, 0, 0, 0]
  else [0, 0, 0, 0]

end ProfitBotFixed

theorem pyInt_eval (q : ℚ) (n : ℤ) (h0 : 0 ≤ q) (h1 : (n : ℚ) ≤ q)
    (h2 : q < n + 1) : pyInt q = n := by
  rw [pyInt_of_nonneg h0]
  exact Int.floor_eq_iff.mpr ⟨h1, h2⟩

theorem arbPairs_eval (t b : ℚ) (M P : ℤ) (h1 : pyInt (b / (t / 100)) = M)
    (h2 : pyInt ((M : ℚ) * ((1/2) * (1/4))) = P) :
    arbPairs t b = max 1 (min P 100) := by
  simp only [arbPairs, h1, h2]

/-- C1: for every snapshot with positive asks and a ticker not already in the
positions map, `check_arbitrage` (profit_bot.py) emits exactly when
`total = yes_ask + no_ask < 99.5` and the fee-adjusted net profit
`gross - gross*0.012` (with `gross = 100 - total`) is at least
`MIN_ARB_PROFIT`; the reported net equals that formula exactly; and every
snapshot with `total ≥ 99.5` yields no emission at all. -/
theorem ProfitBot.check_arbitrage_emission_exact
    (m : Market) (balance : ℚ) (positions : List String)
    (hya : 0 < m.yes_ask) (hna : 0 < m.no_ask) (hpos : m.ticker ∉ positions) :
    ((m.yes_ask + m.no_ask < 199/2 ∧
        ProfitBot.MIN_ARB_PROFIT ≤
          (100 - (m.yes_ask + m.no_ask)) -
            (100 - (m.yes_ask + m.no_ask)) * ProfitBot.TOTAL_FEE_PCT) →
      ProfitBot.check_arbitrage m balance positions
        = [1,
           (100 - (m.yes_ask + m.no_ask)) -
             (100 - (m.yes_ask + m.no_ask)) * ProfitBot.TOTAL_FEE_PCT,
           (arbPairs (m.yes_ask + m.no_ask) balance : ℚ)]) ∧
    (¬ (m.yes_ask + m.no_ask < 199/2 ∧
        ProfitBot.MIN_ARB_PROFIT ≤
          (100 - (m.yes_ask + m.no_ask)) -
            (100 - (m.yes_ask + m.no_ask)) * ProfitBot.TOTAL_FEE_PCT) →
      ProfitBot.check_arbitrage m balance positions = [0, 0, 0, 0]) ∧
    (∀ (m2 : Market) (b2 : ℚ) (p2 : List String),
        199/2 ≤ m2.yes_ask + m2.no_ask →
        ProfitBot.check_arbitrage m2 b2 p2 = [0, 0, 0, 0]) := by
  refine ⟨?_, ?_, ?_⟩
  · rintro ⟨h1, h2⟩
    simp only [check_arbitrage]
    rw [if_neg hpos, if_pos ⟨h1, hya, hna⟩, if_pos h2,
      if_pos (one_le_arbPairs (m.yes_ask + m.no_ask) balance)]
  · intro h
    by_cases hA : m.yes_ask + m.no_ask < 199/2
    · have hB : ¬ ProfitBot.MIN_ARB_PROFIT ≤
          (100 - (m.yes_ask + m.no_ask)) -
            (100 - (m.yes_ask + m.no_ask)) * ProfitBot.TOTAL_FEE_PCT :=
        fun hb => h ⟨hA, hb⟩
      simp only [check_arbitrage]
      rw [if_neg hpos, if_pos ⟨hA, hya, hna⟩, if_neg hB]
    · simp only [check_arbitrage]
      rw [if_neg hpos, if_neg (by tauto :
        ¬ (m.yes_ask + m.no_ask < 199/2 ∧ 0 < m.yes_ask ∧ 0 < m.no_ask))]
  · intro m2 b2 p2 h
    simp only [check_arbitrage]
    split_ifs with h1 h2 h3 h4 <;>
      first
        | rfl
        | exact absurd h2.1 (not_lt.mpr h)

theorem ProfitBot.check_arbitrage_emission_exact_witness :
    ProfitBot.check_arbitrage ⟨"T", 47, 46, 47, 46⟩ 50 [] = [1, 741/125, 6] := by
  have h := (ProfitBot.check_arbitrage_emission_exact ⟨"T", 47, 46, 47, 46⟩ 50 []
      (by norm_num) (by norm_num) (by simp)).1
    (by norm_num [ProfitBot.MIN_ARB_PROFIT, ProfitBot.TOTAL_FEE_PCT])
  rw [h, arbPairs_eval _ _ 53 6
    (pyInt_eval _ _ (by norm_num) (by norm_num) (by norm_num))
    (pyInt_eval _ _ (by norm_num) (by norm_num) (by norm_num))]
  norm_num [ProfitBot.TOTAL_FEE_PCT]

/-- C2: in all three profit_bot variants, the success path of
`check_arbitrage` returns a 3-tuple `(True, net, pairs)`, while every
rejection path returns the 4-tuple `(False, 0, 0, 0)` that the documented
contract and the 4-variable unpacking at the call sites expect. -/
theorem checkArbitrage_success_arity :
    (∀ (m : Market) (b : ℚ) (pos : List String),
       m.ticker ∉ pos → 0 < m.yes_ask → 0 < m.no_ask →
       m.yes_ask + m.no_ask < 199/2 →
       ProfitBot.MIN_ARB_PROFIT ≤
         (100 - (m.yes_ask + m.no_ask)) -
           (100 - (m.yes_ask + m.no_ask)) * ProfitBot.TOTAL_FEE_PCT →
       (ProfitBot.check_arbitrage m b pos).length = 3) ∧
    (∀ (m : Market) (b : ℚ) (pos : List String),
       (ProfitBot.check_arbitrage m b pos).length = 3 ∨
         ProfitBot.check_arbitrage m b pos = [0, 0, 0, 0]) ∧
    (∀ (m : Market) (b : ℚ) (pos : List String),
       m.ticker ∉ pos → 0 < m.yes_ask → 0 < m.no_ask →
       m.yes_ask + m.no_ask < 199/2 →
       ProfitBotPaper.MIN_ARB_PROFIT ≤
         (100 - (m.yes_ask + m.no_ask)) -
           (100 - (m.yes_ask + m.no_ask)) * ProfitBotPaper.TOTAL_FEE_PCT →
       (ProfitBotPaper.check_arbitrage m b pos).length = 3) ∧
    (∀ (m : Market) (b : ℚ) (pos : List String),
       (ProfitBotPaper.check_arbitrage m b pos).length = 3 ∨
         ProfitBotPaper.check_arbitrage m b pos = [0, 0, 0, 0]) ∧
    (∀ (m : Market) (b : ℚ),
       (m.yes_ask + m.yes_bid) / 2 + (m.no_ask + m.no_bid) / 2 < 927/10 →
       ProfitBotFixed.MIN_ARB_PROFIT ≤
         (100 - ((m.yes_ask + m.yes_bid) / 2 + (m.no_ask + m.no_bid) / 2)) -
           (100 - ((m.yes_ask + m.yes_bid) / 2 + (m.no_ask + m.no_bid) / 2)) *
             ProfitBotFixed.TOTAL_FEE_PCT →
       (ProfitBotFixed.check_arbitrage m b).length = 3) ∧
    (∀ (m : Market) (b : ℚ),
       (ProfitBotFixed.check_arbitrage m b).length = 3 ∨
         ProfitBotFixed.check_arbitrage m b = [0, 0, 0, 0]) := by
  refine ⟨?_, ?_, ?_, ?_, ?_, ?_⟩
  · intro m b pos hpos hya hna h1 h2
    simp only [ProfitBot.check_arbitrage]
    rw [if_neg hpos, if_pos ⟨h1, hya, hna⟩, if_pos h2,
      if_pos (one_le_arbPairs (m.yes_ask + m.no_ask) b)]
    rfl
  · intro m b pos
    simp only [ProfitBot.check_arbitrage]
    split_ifs <;> simp
  · intro m b pos hpos hya hna h1 h2
    simp only [ProfitBotPaper.check_arbitrage]
    rw [if_neg hpos, if_pos ⟨h1, hya, hna⟩, if_pos h2,
      if_pos (one_le_arbPairs (m.yes_ask + m.no_ask) b)]
    rfl
  · intro m b pos
    simp only [ProfitBotPaper.check_arbitrage]
    split_ifs <;> simp
  · intro m b h1 h2
    simp only [ProfitBotFixed.check_arbitrage]
    rw [if_pos (by norm_num [ProfitBotFixed.TOTAL_FEE_PCT]; linarith), if_pos h2,
      if_pos (one_le_arbPairs _ b)]
    rfl
  · intro m b
    simp only [ProfitBotFixed.check_arbitrage]
    split_ifs <;> simp

theorem checkArbitrage_success_arity_witness :
    (ProfitBot.check_arbitrage ⟨"T", 47, 46, 47, 46⟩ 50 []).length = 3 ∧
    (ProfitBotPaper.check_arbitrage ⟨"T", 47, 46, 47, 46⟩ 50 []).length = 3 ∧
    (ProfitBotFixed.check_arbitrage ⟨"T", 45, 45, 45, 45⟩ 50).length = 3 := by
  refine ⟨?_, ?_, ?_⟩
  · exact checkArbitrage_success_arity.1 ⟨"T", 47, 46, 47, 46⟩ 50 []
      (by simp) (by norm_num) (by norm_num) (by norm_num)
      (by norm_num [ProfitBot.MIN_ARB_PROFIT, ProfitBot.TOTAL_FEE_PCT])
  · exact checkArbitrage_success_arity.2.2.1 ⟨"T", 47, 46, 47, 46⟩ 50 []
      (by simp) (by norm_num) (by norm_num) (by norm_num)
      (by norm_num [ProfitBotPaper.MIN_ARB_PROFIT, ProfitBotPaper.TOTAL_FEE_PCT])
  · exact checkArbitrage_success_arity.2.2.2.2.1 ⟨"T", 45, 45, 45, 45⟩ 50
      (by norm_num)
      (by norm_num [ProfitBotFixed.MIN_ARB_PROFIT, ProfitBotFixed.TOTAL_FEE_PCT])

namespace KalshiPairs

/-- Result dictionary built by
`KalshiPairsBot.calculate_kalshi_arbitrage` (KalshiPairs.py lines 67-77). -/
structure ArbResult where
  balance : ℚ
  yes_price : ℚ
  no_price : ℚ
  total_cost_per_pair : ℚ
  total_pairs : ℤ
  total_investment : ℚ
  guaranteed_payout : ℚ
  net_profit : ℚ
  roi_percent : ℚ
deriving DecidableEq

/-- Possible outcomes of a Python call: a returned value, a returned
`(None, error_message)` rejection, or an uncaught exception. -/
inductive PyOutcome (α : Type) where
  | ok : α → PyOutcome α
  | err : String → PyOutcome α
  | exn : PyOutcome α
deriving DecidableEq

/-- Embedding of `calculate_kalshi_arbitrage(account_balance, price_yes,
price_no)` from `KalshiPairs.py` (lines 43-77).  Prices are in dollars.
The `.exn` outcomes are the `ZeroDivisionError`s Python raises when
`total_cost_per_pair` is zero (in `balance / total_cost_per_pair`) or when
`total_investment` is zero (in the ROI computation). -/
def calculate_kalshi_arbitrage (account_balance price_yes price_no : ℚ) :
    PyOutcome ArbResult :=
  let price_sum := price_yes + price_no
  let estimated_fee_per_pair := (7/100) * price_sum * (1 - price_sum)
  let total_cost_per_pair := price_sum + estimated_fee_per_pair
  if 1 ≤ total_cost_per_pair then
    .err "NO ARBITRAGE: The total cost (with fees) is >= $1.00. You would lose money."
  else if total_cost_per_pair = 0 then .exn
  else
    let total_pairs : ℤ := ⌊account_balance / total_cost_per_pair⌋
    let total_investment := (total_pairs : ℚ) * total_cost_per_pair
    if total_investment = 0 then .exn
    else
      let guaranteed_payout := (total_pairs : ℚ) * 1
      let net_profit := guaranteed_payout - total_investment
      .ok
        { balance := account_balance
          yes_price := price_yes
          no_price := price_no
          total_cost_per_pair := total_cost_per_pair
          total_pairs := total_pairs
          total_investment := total_investment
          guaranteed_payout := guaranteed_payout
          net_profit := net_profit
          roi_percent := net_profit / total_investment * 100 }

end KalshiPairs

/-- C4 counterexample: with `yes_ask = no_ask = 45` (so `cost_per_pair =
$0.90`) and a bankroll of only $0.50, `check_arbitrage` still emits one
pair — the `max(1, ...)` clamp returns a positive pair count even though
`floor(bankroll / cost_per_pair) = 0`, so the claimed affordability bound
fails. -/
theorem arb_sizing_unaffordable_cex :
    ProfitBot.check_arbitrage ⟨"T", 45, 0, 45, 0⟩ (1/2) [] = [1, 247/25, 1] ∧
    pyInt ((1/2 : ℚ) / (90/100)) = 0 ∧
    ¬ ((1 : ℤ) ≤ pyInt ((1/2 : ℚ) / (90/100))) := by
  have hfloor : pyInt ((1/2 : ℚ) / (90/100)) = 0 :=
    pyInt_eval _ _ (by norm_num) (by norm_num) (by norm_num)
  refine ⟨?_, hfloor, by rw [hfloor]; norm_num⟩
  norm_num [ProfitBot.check_arbitrage, arbPairs, pyInt, ProfitBot.TOTAL_FEE_PCT,
    ProfitBot.MIN_ARB_PROFIT, Int.floor_eq_iff]

/-- C4 amended: the pair count of `check_arbitrage` is clamped from below to
1, so it is bounded by `floor(bankroll / cost_per_pair)` only up to that
clamp: `arbPairs total bal ≤ max 1 ⌊bal / (total/100)⌋`, and whenever the
bankroll cannot afford a single pair the function still returns exactly one
pair.  `calculate_kalshi_arbitrage` (KalshiPairs.py) does bound the pair
count by `floor(balance / total_cost_per_pair)` and only ever returns a
positive pair count, but it raises a `ZeroDivisionError` instead of
rejecting when the size rounds to zero. -/
theorem arb_sizing_bounds :
    (∀ (total bal : ℚ), 0 < total → 0 ≤ bal →
       arbPairs total bal ≤ max 1 ⌊bal / (total / 100)⌋) ∧
    (∀ (total bal : ℚ), 0 < total → 0 ≤ bal → bal < total / 100 →
       arbPairs total bal = 1) ∧
    (∀ (bal py pn : ℚ) (r : KalshiPairs.ArbResult),
       0 ≤ bal → 0 ≤ py → py ≤ 1 → 0 ≤ pn → pn ≤ 1 →
       KalshiPairs.calculate_kalshi_arbitrage bal py pn = .ok r →
       1 ≤ r.total_pairs ∧
         r.total_pairs = ⌊bal / r.total_cost_per_pair⌋ ∧
         0 < r.total_cost_per_pair) := by
  refine ⟨?_, ?_, ?_⟩
  · intro total bal htot hbal
    have hq : (0 : ℚ) ≤ bal / (total / 100) :=
      div_nonneg hbal (by positivity)
    have hM : pyInt (bal / (total / 100)) = ⌊bal / (total / 100)⌋ :=
      pyInt_of_nonneg hq
    simp only [arbPairs, hM]
    set M : ℤ := ⌊bal / (total / 100)⌋ with hMdef
    apply max_le (le_max_left 1 M)
    refine le_trans (min_le_left _ _) ?_
    rcases le_or_lt 0 M with hM0 | hM0
    · refine le_trans ?_ (le_max_right 1 M)
      have hnn : (0 : ℚ) ≤ (M : ℚ) * ((1/2) * (1/4)) := by positivity
      rw [pyInt_of_nonneg hnn]
      calc ⌊(M : ℚ) * ((1/2) * (1/4))⌋ ≤ ⌊(M : ℚ)⌋ := by
            apply Int.floor_le_floor
            nlinarith [show (0 : ℚ) ≤ (M : ℚ) from by exact_mod_cast hM0]
        _ = M := Int.floor_intCast M
    · have hnp : ((M : ℚ)) * ((1/2) * (1/4)) ≤ 0 := by
        apply mul_nonpos_of_nonpos_of_nonneg
        · exact_mod_cast hM0.le
        · norm_num
      exact le_trans (pyInt_nonpos hnp) (le_trans zero_le_one (le_max_left 1 M))
  · intro total bal htot hbal hlt
    have hcpp : (0 : ℚ) < total / 100 := by positivity
    have hM : pyInt (bal / (total / 100)) = 0 := by
      apply pyInt_eval _ _ (div_nonneg hbal hcpp.le)
      · push_cast
        exact div_nonneg hbal hcpp.le
      · push_cast
        rw [zero_add]
        exact (div_lt_one hcpp).mpr hlt
    have hz : pyInt (((0 : ℤ) : ℚ) * ((1/2) * (1/4))) = 0 := by
      apply pyInt_eval <;> norm_num
    simp only [arbPairs, hM, hz]
    norm_num
  · intro bal py pn r hb hy0 hy1 hn0 hn1 heq
    simp only [KalshiPairs.calculate_kalshi_arbitrage] at heq
    split_ifs at heq with h1 h2 h3
    have hs0 : (0 : ℚ) ≤ py + pn := add_nonneg hy0 hn0
    have hs2 : py + pn ≤ 2 := by linarith
    have htc0 : (0 : ℚ) ≤ (py + pn) + (7/100) * (py + pn) * (1 - (py + pn)) := by
      nlinarith
    have htc : (0 : ℚ) < (py + pn) + (7/100) * (py + pn) * (1 - (py + pn)) :=
      lt_of_le_of_ne htc0 (fun hh => h2 hh.symm)
    have htp0 : 0 ≤ ⌊bal / ((py + pn) + (7/100) * (py + pn) * (1 - (py + pn)))⌋ :=
      Int.floor_nonneg.mpr (div_nonneg hb htc.le)
    have htpne : ⌊bal / ((py + pn) + (7/100) * (py + pn) * (1 - (py + pn)))⌋ ≠ 0 := by
      intro hzero
      apply h3
      rw [hzero]
      norm_num
    injection heq with h
    subst h
    exact ⟨by dsimp only; omega, rfl, htc⟩

/-- Concrete result record of `calculate_kalshi_arbitrage 1 0.45 0.45`. -/
def kalshiArbSample : KalshiPairs.ArbResult :=
  ⟨1, 9/20, 9/20, 9063/10000, 1, 9063/10000, 1, 937/10000, 93700/9063⟩

theorem arb_sizing_bounds_witness :
    arbPairs 94 50 ≤ max 1 ⌊(50 : ℚ) / (94 / 100)⌋ ∧
    arbPairs 90 (1/2) = 1 ∧
    (1 ≤ kalshiArbSample.total_pairs ∧
      kalshiArbSample.total_pairs = ⌊(1 : ℚ) / kalshiArbSample.total_cost_per_pair⌋ ∧
      0 < kalshiArbSample.total_cost_per_pair) := by
  have hfl : ⌊(1 : ℚ) / (9/20 + 9/20 + 7/100 * (9/20 + 9/20) * (1 - (9/20 + 9/20)))⌋
      = 1 := by
    rw [Int.floor_eq_iff]
    norm_num
  have heq : KalshiPairs.calculate_kalshi_arbitrage 1 (9/20) (9/20)
      = .ok kalshiArbSample := by
    simp only [KalshiPairs.calculate_kalshi_arbitrage]
    rw [if_neg (by norm_num), if_neg (by norm_num), hfl,
      if_neg (by norm_num)]
    norm_num [kalshiArbSample, KalshiPairs.ArbResult.mk.injEq]
  refine ⟨arb_sizing_bounds.1 94 50 (by norm_num) (by norm_num),
    arb_sizing_bounds.2.1 90 (1/2) (by norm_num) (by norm_num) (by norm_num),
    arb_sizing_bounds.2.2 1 (9/20) (9/20) kalshiArbSample
      (by norm_num) (by norm_num) (by norm_num) (by norm_num) (by norm_num) heq⟩

namespace ProfitBot

/-- One entry of the exchange portfolio response used by
`reconcile_positions` (profit_bot.py lines 198-208). -/
structure BrokerPos where
  ticker : String
  count : ℤ
  side : String
  yes_price : ℚ
deriving DecidableEq

/-- Fields of a saved position record that reconciliation inspects
(`saved_pos.get("type")`, `saved_pos.get("pairs")`). -/
structure SavedPos where
  type : String
  pairs : ℤ
deriving DecidableEq

/-- The two discrepancy messages `reconcile_positions` can build
(profit_bot.py lines 215-224): a saved ticker absent from the portfolio,
or an arbitrage pair-count mismatch. -/
inductive Discrepancy where
  | missing (ticker : String)
  | arbCount (ticker : String) (expected actual : ℤ)
deriving DecidableEq

/-- Discrepancy computed for one saved entry (profit_bot.py lines 215-224):
missing if the ticker is not in the portfolio; otherwise, for arbitrage
positions, compare `pairs * 2` with the number of portfolio entries for
that ticker. -/
def discOf (api : List BrokerPos) (p : String × SavedPos) : Option Discrepancy :=
  if p.1 ∈ api.map BrokerPos.ticker then
    if p.2.type = "arbitrage" then
      if ((api.filter (fun b => b.ticker = p.1)).length : ℤ) ≠ p.2.pairs * 2 then
        some (.arbCount p.1 (p.2.pairs * 2)
          ((api.filter (fun b => b.ticker = p.1)).length : ℤ))
      else none
    else none
  else some (.missing p.1)

/-- Discrepancy list over all saved positions. -/
def reconcileDiff (api : List BrokerPos) (saved : List (String × SavedPos)) :
    List Discrepancy :=
  saved.filterMap (discOf api)

/-- One reconciliation pass (the 200-status body of `reconcile_positions`,
profit_bot.py lines 198-239): compute the discrepancies and, only when
there are any, prune saved entries whose ticker is absent from the
portfolio; pair-count mismatches are not repaired. -/
def reconcilePass (api : List BrokerPos) (saved : List (String × SavedPos)) :
    List Discrepancy × List (String × SavedPos) :=
  let d := reconcileDiff api saved
  if d = [] then (d, saved)
  else (d, saved.filter (fun p => p.1 ∈ api.map BrokerPos.ticker))

/-- Outcome of the portfolio-positions HTTP request inside
`reconcile_positions`: a response with a status code, or a raised
exception. -/
inductive HttpOutcome where
  | response (status : ℕ) (positions : List BrokerPos)
  | exn

/-- Embedding of `reconcile_positions` (profit_bot.py lines 187-243): on a
200 response it runs a reconciliation pass and returns the (possibly
cleaned) saved positions; on any other status the `try` body falls through
with no `return`, so the function returns `None`; on an exception it
returns the last saved positions from disk. -/
def reconcile_positions (resp : HttpOutcome)
    (savedOnDisk : List (String × SavedPos)) :
    Option (List (String × SavedPos)) :=
  match resp with
  | .response status api =>
      if status = 200 then some (reconcilePass api savedOnDisk).2 else none
  | .exn => some savedOnDisk

theorem reconcilePass_fst (api : List BrokerPos)
    (saved : List (String × SavedPos)) :
    (reconcilePass api saved).1 = reconcileDiff api saved := by
  simp only [reconcilePass]
  split <;> rfl

theorem reconcilePass_snd_of_ne (api : List BrokerPos)
    (saved : List (String × SavedPos)) (h : reconcileDiff api saved ≠ []) :
    (reconcilePass api saved).2
      = saved.filter (fun p => p.1 ∈ api.map BrokerPos.ticker) := by
  simp only [reconcilePass]
  rw [if_neg h]

theorem reconcilePass_snd_of_eq (api : List BrokerPos)
    (saved : List (String × SavedPos)) (h : reconcileDiff api saved = []) :
    (reconcilePass api saved).2 = saved := by
  simp only [reconcilePass]
  rw [if_pos h]

theorem discOf_of_mem (api : List BrokerPos) (p : String × SavedPos)
    (hmem : p.1 ∈ api.map BrokerPos.ticker) (d : Discrepancy)
    (hf : discOf api p = some d) :
    ∃ t e a, d = Discrepancy.arbCount t e a := by
  unfold discOf at hf
  rw [if_pos hmem] at hf
  split_ifs at hf
  · exact ⟨p.1, p.2.pairs * 2, ((api.filter (fun b => b.ticker = p.1)).length : ℤ),
      (Option.some.inj hf).symm⟩

end ProfitBot

/-- C6 counterexample: a saved arbitrage position of 3 pairs for ticker X
while the portfolio holds one entry for X.  The first reconciliation pass
reports the pair-count mismatch but its repair (pruning only tickers
absent remotely) keeps the record, so the second pass reports the very
same non-empty discrepancy list instead of an empty diff. -/
theorem reconcile_not_idempotent_cex :
    (ProfitBot.reconcilePass [⟨"X", 3, "yes", 45⟩]
        (ProfitBot.reconcilePass [⟨"X", 3, "yes", 45⟩]
          [("X", ⟨"arbitrage", 3⟩)]).2).1
      = [ProfitBot.Discrepancy.arbCount "X" 6 1] := by
  simp [ProfitBot.reconcilePass, ProfitBot.reconcileDiff, ProfitBot.discOf]

/-- C6 amended: one reconciliation pass removes every missing-ticker
discrepancy, so a second pass with the same portfolio and the repaired
store can only report arbitrage pair-count mismatches (which the repair
never fixes); when the retained records have no such mismatch, the second
diff is empty — but pair-count mismatches for tickers still present
remotely survive reconciliation unchanged. -/
theorem reconcile_second_diff_only_arb_mismatch
    (api : List ProfitBot.BrokerPos) (saved : List (String × ProfitBot.SavedPos))
    (d : ProfitBot.Discrepancy)
    (hd : d ∈ (ProfitBot.reconcilePass api
        (ProfitBot.reconcilePass api saved).2).1) :
    ∃ t e a, d = ProfitBot.Discrepancy.arbCount t e a := by
  rw [ProfitBot.reconcilePass_fst] at hd
  by_cases h : ProfitBot.reconcileDiff api saved = []
  · rw [ProfitBot.reconcilePass_snd_of_eq api saved h, h] at hd
    exact absurd hd (List.not_mem_nil d)
  · rw [ProfitBot.reconcilePass_snd_of_ne api saved h] at hd
    unfold ProfitBot.reconcileDiff at hd
    rcases List.mem_filterMap.mp hd with ⟨p, hp, hf⟩
    have hmem : p.1 ∈ api.map ProfitBot.BrokerPos.ticker := by
      have := (List.mem_filter.mp hp).2
      simpa using this
    exact ProfitBot.discOf_of_mem api p hmem d hf

theorem reconcile_second_diff_only_arb_mismatch_witness :
    ∃ t e a, ProfitBot.Discrepancy.arbCount "X" 6 1
      = ProfitBot.Discrepancy.arbCount t e a := by
  apply reconcile_second_diff_only_arb_mismatch [⟨"X", 3, "yes", 45⟩]
    [("X", ⟨"arbitrage", 3⟩)]
  simp [ProfitBot.reconcilePass, ProfitBot.reconcileDiff, ProfitBot.discOf]

/-- C9: if the portfolio-positions request completes with a non-200 status,
`reconcile_positions` returns `None` (the `try` body falls through without
a `return`), whereas the exception path returns the last saved positions. -/
theorem ProfitBot.reconcile_non200_returns_none :
    (∀ (status : ℕ) (api : List ProfitBot.BrokerPos)
       (saved : List (String × ProfitBot.SavedPos)),
       status ≠ 200 →
       ProfitBot.reconcile_positions (.response status api) saved = none) ∧
    (∀ (saved : List (String × ProfitBot.SavedPos)),
       ProfitBot.reconcile_positions .exn saved = some saved) := by
  constructor
  · intro status api saved h
    simp [ProfitBot.reconcile_positions, h]
  · intro saved
    rfl

theorem ProfitBot.reconcile_non200_returns_none_witness :
    ProfitBot.reconcile_positions (.response 404 []) [] = none ∧
    ProfitBot.reconcile_positions .exn [("X", ⟨"arbitrage", 3⟩)]
      = some [("X", ⟨"arbitrage", 3⟩)] :=
  ⟨ProfitBot.reconcile_non200_returns_none.1 404 [] [] (by decide),
   ProfitBot.reconcile_non200_returns_none.2 [("X", ⟨"arbitrage", 3⟩)]⟩

/-- Python test `sl is not None and sl <= 0` used by both flipper monitor
loops to detect market expiry. -/
def pyExpired : Option ℚ → Bool
  | some s => if s ≤ 0 then true else false
  | none => false

/-- Python test `sl is not None and sl < 60` (flipper.py line 379). -/
def pyNearExpiry : Option ℚ → Bool
  | some s => if s < 60 then true else false
  | none => false

namespace FlipperFixed

/-- Data observed by one iteration of the monitoring loop: whether
`get_market` returned a truthy market, the parsed seconds left (None when
`close_time` fails to parse), and the bid of the held side. -/
structure Tick where
  marketOk : Bool
  secsLeft : Option ℚ
  bid : ℚ

/-- Loop-carried state of `trade_market` (flipper_fixed.py lines 201-202):
the `flips` counter and the accumulated `total_loss` in cents. -/
structure FState where
  flips : ℕ
  totalLoss : ℚ
deriving DecidableEq

/-- How one loop iteration ends: `hold` means the loop continues; every
other outcome leaves the loop (monitoring ends). -/
inductive FOutcome where
  | noMarket
  | expired
  | tookProfit
  | stoppedOut
  | hold
deriving DecidableEq

/-- One iteration of the monitoring loop of `trade_market`
(flipper_fixed.py lines 204-242) with `STOP_LOSS_CENTS = 2` and
`TAKE_PROFIT_CENTS = 3`.  The result of the sell `place_order` call is
never inspected by the Python code, hence the unused `sellOk` argument. -/
def step (entry : ℚ) (t : Tick) (st : FState) (sellOk : Bool) :
    FOutcome × FState :=
  if t.marketOk = false then (.noMarket, st)
  else if pyExpired t.secsLeft then (.expired, st)
  else if 3 ≤ t.bid - entry then (.tookProfit, st)
  else if t.bid - entry ≤ -2 then
    (.stoppedOut, ⟨st.flips + 1, st.totalLoss + (entry - t.bid)⟩)
  else (.hold, st)

/-- The monitoring loop run over a sequence of observed ticks: it keeps
looping exactly while `step` holds. -/
def run (entry : ℚ) : List Tick → FState → FOutcome × FState
  | [], st => (.hold, st)
  | t :: ts, st =>
    match step entry t st true with
    | (FOutcome.hold, st2) => run entry ts st2
    | (o, st2) => (o, st2)

theorem step_hold (entry : ℚ) (t : Tick) (st : FState) (b : Bool)
    (h1 : t.marketOk = true) (h2 : pyExpired t.secsLeft = false)
    (h3 : t.bid - entry < 3) (h4 : -2 < t.bid - entry) :
    step entry t st b = (.hold, st) := by
  unfold step
  rw [if_neg (by simp [h1]), if_neg (by simp [h2]),
    if_neg (not_le.mpr h3), if_neg (not_le.mpr h4)]

theorem step_stop (entry : ℚ) (t : Tick) (st : FState) (b : Bool)
    (h1 : t.marketOk = true) (h2 : pyExpired t.secsLeft = false)
    (h3 : t.bid - entry ≤ -2) :
    step entry t st b
      = (.stoppedOut, ⟨st.flips + 1, st.totalLoss + (entry - t.bid)⟩) := by
  unfold step
  rw [if_neg (by simp [h1]), if_neg (by simp [h2]),
    if_neg (by linarith), if_pos h3]

/-- `calculate_obi(orderbook, depth=5)` from `flipper_fixed.py` (lines
88-100): volumes are summed over the first `depth` levels of each side. -/
def calculate_obi (yes no : List (ℤ × ℕ)) (depth : ℕ) : ℚ :=
  let yes_volume := ((yes.take depth).map Prod.snd).sum
  let no_volume := ((no.take depth).map Prod.snd).sum
  if yes_volume + no_volume = 0 then 0
  else ((yes_volume : ℚ) - (no_volume : ℚ)) / ((yes_volume : ℚ) + (no_volume : ℚ))

end FlipperFixed

namespace Flipper

/-- The possible ways one iteration of the swing monitor loop
(flipper.py lines 327-403) can end; `skip` is the `continue` on a
non-positive bid, `hold` is falling through to the next iteration, and
`holdToSettle` is the near-expiry break without a sell. -/
inductive Act where
  | dataLoss
  | expired
  | skip
  | sellTarget
  | sellNearExpiry
  | holdToSettle
  | sellAboveThreshold
  | hold
deriving DecidableEq

/-- Bid resolution with the order-book fallback (flipper.py lines 342-354):
the market bid is used unless it is below 5 or above 99, in which case the
top-of-book price is used when it exceeds 5, else 0. -/
def resolveBid (mbid : ℚ) (obTop : Option ℚ) : ℚ :=
  if mbid < 5 ∨ 99 < mbid then
    match obTop with
    | some p => if 5 < p then p else 0
    | none => 0
  else mbid

/-- One iteration of the swing monitoring loop of `trade_market`
(flipper.py lines 327-403) with `SWING_TARGET = 10` and
`RISK_THRESHOLD = 67`.  `sellOk` is the ignored result of the sell
`place_order` call. -/
def step (entry : ℚ) (dataOk : Bool) (secsLeft : Option ℚ) (mbid : ℚ)
    (obTop : Option ℚ) (sellOk : Bool) : Act :=
  if dataOk = false then .dataLoss
  else if pyExpired secsLeft then .expired
  else if resolveBid mbid obTop ≤ 0 then .skip
  else if 10 ≤ resolveBid mbid obTop - entry then .sellTarget
  else if pyNearExpiry secsLeft then
    (if 0 < resolveBid mbid obTop - entry then .sellNearExpiry else .holdToSettle)
  else if 67 < resolveBid mbid obTop ∧ 0 < resolveBid mbid obTop - entry then
    .sellAboveThreshold
  else .hold

/-- Acts that place a sell order. -/
def isSell : Act → Bool
  | .sellTarget => true
  | .sellNearExpiry => true
  | .sellAboveThreshold => true
  | _ => false

/-- `get_vol` inside `calculate_obi` (flipper.py lines 219-223): take the
price of the last (best) bid level and sum the volume of all levels within
`depth` cents of it. -/
def get_vol (depth : ℤ) (bids : List (ℤ × ℕ)) : ℕ :=
  match bids.getLast? with
  | none => 0
  | some best => ((bids.filter (fun pv => best.1 - depth ≤ pv.1)).map Prod.snd).sum

/-- `calculate_obi(orderbook, depth=5)` from `flipper.py` (lines 214-229). -/
def calculate_obi (yes no : List (ℤ × ℕ)) (depth : ℤ) : ℚ :=
  let v_yes := get_vol depth yes
  let v_no := get_vol depth no
  if v_yes + v_no = 0 then 0
  else ((v_yes : ℚ) - (v_no : ℚ)) / ((v_yes : ℚ) + (v_no : ℚ))

end Flipper

/-- C3 counterexample: on a take-profit tick (entry 50, bid 53) with the
sell order placement failing (`sellOk = false`), the monitor still leaves
the loop as `tookProfit` with no state retry — the position is treated as
done even though no fill was confirmed; the swing variant behaves the same
way. -/
theorem flipper_exit_failure_advances_cex :
    FlipperFixed.step 50 ⟨true, some 100, 53⟩ ⟨0, 0⟩ false
      = (FlipperFixed.FOutcome.tookProfit, ⟨0, 0⟩) ∧
    FlipperFixed.FOutcome.tookProfit ≠ FlipperFixed.FOutcome.hold ∧
    Flipper.step 60 true (some 300) 71 none false = Flipper.Act.sellTarget ∧
    Flipper.Act.sellTarget ≠ Flipper.Act.hold := by
  refine ⟨?_, by decide, ?_, by decide⟩
  · unfold FlipperFixed.step
    norm_num [pyExpired]
  · unfold Flipper.step
    norm_num [pyExpired, Flipper.resolveBid]

/-- C3 amended: the flipper monitor loops ignore the result of exit order
placement entirely — the tick outcome and recorded state are identical
whether the sell order succeeds or fails, so a failed exit does not keep
the position in its pre-transition state; monitoring terminates exactly as
if the order had filled. -/
theorem flipper_exit_independent_of_order_result :
    (∀ (entry : ℚ) (t : FlipperFixed.Tick) (st : FlipperFixed.FState)
       (a b : Bool),
       FlipperFixed.step entry t st a = FlipperFixed.step entry t st b) ∧
    (∀ (entry : ℚ) (dataOk : Bool) (sl : Option ℚ) (mbid : ℚ)
       (obTop : Option ℚ) (a b : Bool),
       Flipper.step entry dataOk sl mbid obTop a
         = Flipper.step entry dataOk sl mbid obTop b) :=
  ⟨fun _ _ _ _ _ => rfl, fun _ _ _ _ _ _ _ => rfl⟩

/-- C7: with entry 50¢, stop-loss 2¢ and reversal disabled, a monitoring
run whose earlier ticks all hold (bid strictly between 48 and 53, market
data present, not expired) and whose next tick bids exactly 48¢ ends at
that tick with outcome `stoppedOut`: the flip counter goes from 0 to
exactly 1, the cumulative realized loss from 0 to exactly 2¢, and no later
tick is processed. -/
theorem FlipperFixed.stop_loss_single_flip
    (pre rest : List FlipperFixed.Tick) (t : FlipperFixed.Tick)
    (hpre : ∀ u ∈ pre, u.marketOk = true ∧ pyExpired u.secsLeft = false ∧
        48 < u.bid ∧ u.bid < 53)
    (hok : t.marketOk = true) (hexp : pyExpired t.secsLeft = false)
    (hbid : t.bid = 48) :
    FlipperFixed.run 50 (pre ++ t :: rest) ⟨0, 0⟩
      = (FlipperFixed.FOutcome.stoppedOut, ⟨1, 2⟩) := by
  induction pre with
  | nil =>
    rw [List.nil_append]
    show FlipperFixed.run 50 (t :: rest) ⟨0, 0⟩ = _
    rw [FlipperFixed.run,
      FlipperFixed.step_stop 50 t ⟨0, 0⟩ true hok hexp (by rw [hbid]; norm_num)]
    rw [hbid]
    norm_num
  | cons u us ih =>
    obtain ⟨hu1, hu2, hu3, hu4⟩ := hpre u (List.mem_cons_self u us)
    rw [List.cons_append]
    show FlipperFixed.run 50 (u :: (us ++ t :: rest)) ⟨0, 0⟩ = _
    rw [FlipperFixed.run,
      FlipperFixed.step_hold 50 u ⟨0, 0⟩ true hu1 hu2 (by linarith) (by linarith)]
    exact ih (fun v hv => hpre v (List.mem_cons_of_mem u hv))

theorem FlipperFixed.stop_loss_single_flip_witness :
    FlipperFixed.run 50
        [⟨true, some 300, 50⟩, ⟨true, some 200, 48⟩, ⟨true, some 100, 30⟩]
        ⟨0, 0⟩
      = (FlipperFixed.FOutcome.stoppedOut, ⟨1, 2⟩) := by
  have h := FlipperFixed.stop_loss_single_flip
    [⟨true, some 300, 50⟩] [⟨true, some 100, 30⟩] ⟨true, some 200, 48⟩
    (by
      intro u hu
      simp only [List.mem_singleton] at hu
      subst hu
      refine ⟨rfl, ?_, by norm_num, by norm_num⟩
      norm_num [pyExpired])
    rfl (by norm_num [pyExpired]) rfl
  simpa using h

/-- C8: in the swing monitor loop, every branch that places a sell order
requires strictly positive pnl (`current_bid - entry > 0`) — so no sell is
ever placed at zero or negative pnl, the position being held to settlement
instead — and on any live tick (data present, not expired) where pnl is
positive and the resolved bid is above `RISK_THRESHOLD = 67`, the tick
ends in a sell. -/
theorem Flipper.swing_no_loss_sell :
    (∀ (entry : ℚ) (dataOk : Bool) (sl : Option ℚ) (mbid : ℚ)
       (obTop : Option ℚ) (sellOk : Bool),
       Flipper.isSell (Flipper.step entry dataOk sl mbid obTop sellOk) = true →
       0 < Flipper.resolveBid mbid obTop - entry) ∧
    (∀ (entry : ℚ) (sl : Option ℚ) (mbid : ℚ) (obTop : Option ℚ)
       (sellOk : Bool),
       pyExpired sl = false →
       67 < Flipper.resolveBid mbid obTop →
       0 < Flipper.resolveBid mbid obTop - entry →
       Flipper.isSell (Flipper.step entry true sl mbid obTop sellOk) = true) := by
  constructor
  · intro entry dataOk sl mbid obTop sellOk hs
    unfold Flipper.step at hs
    split_ifs at hs with h1 h2 h3 h4 h5 h6 h7 <;>
      first
        | (exact absurd hs (by decide))
        | linarith
        | assumption
        | exact h7.2
  · intro entry sl mbid obTop sellOk hexp h67 hpnl
    unfold Flipper.step
    rw [if_neg (by simp), if_neg (by simp [hexp]),
      if_neg (by intro hle; linarith)]
    split_ifs with h4 h5 h6 h7
    all_goals first
      | rfl
      | (exact absurd hpnl (by assumption))
      | (exact absurd (And.intro h67 hpnl) (by assumption))

theorem Flipper.swing_no_loss_sell_witness :
    (0 : ℚ) < Flipper.resolveBid 71 none - 60 ∧
    Flipper.isSell (Flipper.step 60 true (some 300) 71 none true) = true := by
  have h2 := Flipper.swing_no_loss_sell.2 60 (some 300) 71 none true
    (by norm_num [pyExpired])
    (by norm_num [Flipper.resolveBid])
    (by norm_num [Flipper.resolveBid])
  exact ⟨Flipper.swing_no_loss_sell.1 60 true (some 300) 71 none true h2, h2⟩

theorem obiFormula_bounds (a b : ℕ) :
    -1 ≤ (if a + b = 0 then (0 : ℚ)
      else ((a : ℚ) - (b : ℚ)) / ((a : ℚ) + (b : ℚ))) ∧
    (if a + b = 0 then (0 : ℚ)
      else ((a : ℚ) - (b : ℚ)) / ((a : ℚ) + (b : ℚ))) ≤ 1 := by
  by_cases h : a + b = 0
  · rw [if_pos h]
    norm_num
  · rw [if_neg h]
    have hpos : (0 : ℚ) < (a : ℚ) + (b : ℚ) := by
      have : 0 < a + b := Nat.pos_of_ne_zero h
      exact_mod_cast this
    constructor
    · rw [le_div_iff hpos]
      have hb : (0 : ℚ) ≤ (b : ℚ) := Nat.cast_nonneg b
      linarith
    · rw [div_le_one hpos]
      have ha : (0 : ℚ) ≤ (a : ℚ) := Nat.cast_nonneg a
      linarith

/-- C10: both `calculate_obi` variants are total and always land in
`[-1, 1]`: when the summed volume in the depth window is zero the guarded
division returns 0, otherwise the result is exactly
`(v_yes - v_no) / (v_yes + v_no)`. -/
theorem obi_total_and_bounded (yes no : List (ℤ × ℕ)) (depth : ℤ) (d : ℕ) :
    (-1 ≤ Flipper.calculate_obi yes no depth ∧
      Flipper.calculate_obi yes no depth ≤ 1) ∧
    (Flipper.get_vol depth yes + Flipper.get_vol depth no = 0 →
      Flipper.calculate_obi yes no depth = 0) ∧
    (Flipper.get_vol depth yes + Flipper.get_vol depth no ≠ 0 →
      Flipper.calculate_obi yes no depth
        = ((Flipper.get_vol depth yes : ℚ) - (Flipper.get_vol depth no : ℚ)) /
            ((Flipper.get_vol depth yes : ℚ) + (Flipper.get_vol depth no : ℚ))) ∧
    (-1 ≤ FlipperFixed.calculate_obi yes no d ∧
      FlipperFixed.calculate_obi yes no d ≤ 1) ∧
    (((yes.take d).map Prod.snd).sum + ((no.take d).map Prod.snd).sum = 0 →
      FlipperFixed.calculate_obi yes no d = 0) ∧
    (((yes.take d).map Prod.snd).sum + ((no.take d).map Prod.snd).sum ≠ 0 →
      FlipperFixed.calculate_obi yes no d
        = ((((yes.take d).map Prod.snd).sum : ℚ) -
              (((no.take d).map Prod.snd).sum : ℚ)) /
            ((((yes.take d).map Prod.snd).sum : ℚ) +
              (((no.take d).map Prod.snd).sum : ℚ))) := by
  refine ⟨?_, ?_, ?_, ?_, ?_, ?_⟩
  · exact obiFormula_bounds (Flipper.get_vol depth yes) (Flipper.get_vol depth no)
  · intro h
    simp only [Flipper.calculate_obi]
    rw [if_pos h]
  · intro h
    simp only [Flipper.calculate_obi]
    rw [if_neg h]
  · exact obiFormula_bounds (((yes.take d).map Prod.snd).sum)
      (((no.take d).map Prod.snd).sum)
  · intro h
    simp only [FlipperFixed.calculate_obi]
    rw [if_pos h]
  · intro h
    simp only [FlipperFixed.calculate_obi]
    rw [if_neg h]

theorem obi_total_and_bounded_witness :
    (-1 ≤ Flipper.calculate_obi [(50, 3)] [(48, 1)] 5 ∧
      Flipper.calculate_obi [(50, 3)] [(48, 1)] 5 ≤ 1) ∧
    Flipper.calculate_obi [(50, 3)] [(48, 1)] 5
      = ((Flipper.get_vol 5 [(50, 3)] : ℚ) - (Flipper.get_vol 5 [(48, 1)] : ℚ)) /
          ((Flipper.get_vol 5 [(50, 3)] : ℚ) + (Flipper.get_vol 5 [(48, 1)] : ℚ)) ∧
    FlipperFixed.calculate_obi ([] : List (ℤ × ℕ)) [] 5 = 0 :=
  ⟨(obi_total_and_bounded [(50, 3)] [(48, 1)] 5 5).1,
   (obi_total_and_bounded [(50, 3)] [(48, 1)] 5 5).2.2.1 (by decide),
   (obi_total_and_bounded ([] : List (ℤ × ℕ)) [] 5 5).2.2.2.2.1 (by decide)⟩

namespace MultiAccountArb

/-- Embedding of the decision structure of `execute_dual_arb`
(multi_account_arb.py lines 69-107): paper mode returns True without
placing orders; otherwise the function returns True exactly when both leg
orders succeeded and False in every other case — the partial-fill case
(one leg filled, one failed) produces the same bare False as a double
failure, with no position record of any kind. -/
def execute_dual_arb (autoTrade ok1 ok2 : Bool) : Bool :=
  if autoTrade = false then true
  else if ok1 && ok2 then true
  else false

end MultiAccountArb

/-- C5 counterexample: when exactly one leg fills (YES succeeds, NO fails),
`execute_dual_arb` returns the same bare `False` as when both legs fail:
the partial fill is not recorded, alerted as `Unbalanced`, or queued for
unwind — it is indistinguishable from a plain failure. -/
theorem dual_arb_partial_fill_cex :
    MultiAccountArb.execute_dual_arb true true false = false ∧
    MultiAccountArb.execute_dual_arb true false false = false ∧
    MultiAccountArb.execute_dual_arb true true false
      = MultiAccountArb.execute_dual_arb true false false := by
  decide

/-- C5 amended: in live mode, any execution in which at least one leg fails
— including the partial-fill case where the other leg succeeded — makes
`execute_dual_arb` return `False`, identical to a total failure; no
`Unbalanced` position is recorded and no unwind is attempted. -/
theorem dual_arb_partial_fill_plain_failure :
    ∀ (ok1 ok2 : Bool), (ok1 = false ∨ ok2 = false) →
      MultiAccountArb.execute_dual_arb true ok1 ok2 = false := by
  decide

theorem dual_arb_partial_fill_plain_failure_witness :
    MultiAccountArb.execute_dual_arb true true false = false :=
  dual_arb_partial_fill_plain_failure true false (Or.inr rfl)
